import Mathlib

/-!
Shallow embedding of the Oops storefront client logic (script.js):
the persisted-store data model (session, user directory, cart), the
Auth Service (registerUser, loginUser, logoutUser), the Cart Service
(addToCart, removeFromCart, changeQuantity), the Pricing Engine
(bulk-discount tiers over total quantity), and the Checkout Flow
(minimum-order gating, order summary, cart clearing on submission).

Monetary values are modelled with exact rationals (the spec's
decimal-safe arithmetic), quantities and quantity deltas with integers.
Browser-local storage is modelled as an explicit `AppState` record that
each operation transforms; DOM rendering and alerts are out of scope and
operations that only touch the DOM are omitted.
-/

/-- A cart entry as stored under the cart key: `{ id, name, price, quantity }`. -/
structure CartItem where
  id : String
  name : String
  price : ℚ
  quantity : ℤ
deriving DecidableEq

/-- A product as read from the add-to-cart button attributes: `{ id, name, price }`. -/
structure Product where
  id : String
  name : String
  price : ℚ
deriving DecidableEq

/-- A registered wholesaler as stored in the user directory. -/
structure User where
  email : String
  phone : String
  company : String
  password : String
deriving DecidableEq

/-- The three independent persisted records: session (the logged-in email or
absent), the user directory, and the cart. -/
structure AppState where
  session : Option String
  users : List User
  cart : List CartItem
deriving DecidableEq

/-- Source `isLoggedIn()`: true iff a session record exists. -/
def isLoggedIn (st : AppState) : Bool :=
  st.session.isSome

/-! ## Pricing Engine -/

/-- Source `cart.reduce((sum, item) => sum + item.quantity, 0)`. -/
def totalQuantity (cart : List CartItem) : ℤ :=
  cart.foldl (fun sum item => sum + item.quantity) 0

/-- The bulk-discount tier chain shared verbatim by `renderCart` and
`renderCheckout`: 0.2 at ≥ 500, 0.15 at ≥ 300, 0.1 at ≥ 200, 0.05 at ≥ 100,
else 0. -/
def discountRateOf (totalQty : ℤ) : ℚ :=
  if totalQty ≥ 500 then 2/10
  else if totalQty ≥ 300 then 15/100
  else if totalQty ≥ 200 then 1/10
  else if totalQty ≥ 100 then 5/100
  else 0

/-- Source `cart.reduce((sum, item) => sum + item.price * item.quantity, 0)`
(called `grandTotalRaw` in the cart view, `subtotal` at checkout). -/
def subtotal (cart : List CartItem) : ℚ :=
  cart.foldl (fun sum item => sum + item.price * (item.quantity : ℚ)) 0

/-- Source `discountAmount = subtotal * discountRate`. -/
def discountAmount (cart : List CartItem) : ℚ :=
  subtotal cart * discountRateOf (totalQuantity cart)

/-- Source `grandTotal = subtotal - discountAmount`. -/
def grandTotal (cart : List CartItem) : ℚ :=
  subtotal cart - discountAmount cart

/-- The five pricing outputs displayed to the user. -/
structure PricingOut where
  totalQuantity : ℤ
  discountRate : ℚ
  subtotal : ℚ
  discountAmount : ℚ
  grandTotal : ℚ
deriving DecidableEq

/-- The pricing computation exactly as coded in `renderCart`: `totalQty` by
reduce, the discount-rate if-chain, `grandTotalRaw` by reduce,
`discountAmount = grandTotalRaw * discountRate`,
`grandTotal = grandTotalRaw - discountAmount`. -/
def pricingCartView (cart : List CartItem) : PricingOut :=
  let totalQty := cart.foldl (fun sum item => sum + item.quantity) 0
  let discountRate : ℚ :=
    if totalQty ≥ 500 then 2/10
    else if totalQty ≥ 300 then 15/100
    else if totalQty ≥ 200 then 1/10
    else if totalQty ≥ 100 then 5/100
    else 0
  let grandTotalRaw := cart.foldl (fun sum item => sum + item.price * (item.quantity : ℚ)) 0
  let discountAmt := grandTotalRaw * discountRate
  let grandTot := grandTotalRaw - discountAmt
  ⟨totalQty, discountRate, grandTotalRaw, discountAmt, grandTot⟩

/-- The pricing computation exactly as coded in `renderCheckout`: `totalQty`
by reduce, the same discount-rate if-chain, `subtotal` accumulated over the
items, `discountAmount = subtotal * discountRate`,
`total = subtotal - discountAmount`. -/
def pricingCheckoutView (cart : List CartItem) : PricingOut :=
  let totalQty := cart.foldl (fun sum item => sum + item.quantity) 0
  let discountRate : ℚ :=
    if totalQty ≥ 500 then 2/10
    else if totalQty ≥ 300 then 15/100
    else if totalQty ≥ 200 then 1/10
    else if totalQty ≥ 100 then 5/100
    else 0
  let subtot := cart.foldl (fun sum item => sum + item.price * (item.quantity : ℚ)) 0
  let discountAmt := subtot * discountRate
  let total := subtot - discountAmt
  ⟨totalQty, discountRate, subtot, discountAmt, total⟩

/-! ## Cart Service -/

/-- The logged-in body of `addToCart`: `cart.find(item => item.id ===
product.id)` mutates the first match's quantity by +1, otherwise
`cart.push({...product, quantity: 1})`. -/
def addItem : List CartItem → Product → List CartItem
  | [], p => [⟨p.id, p.name, p.price, 1⟩]
  | item :: rest, p =>
      if item.id == p.id then ⟨item.id, item.name, item.price, item.quantity + 1⟩ :: rest
      else item :: addItem rest p

/-- Source `addToCart(product)`: when not logged in, alert and redirect leave the
state untouched; otherwise apply `addItem` and persist. -/
def addToCart (st : AppState) (p : Product) : AppState :=
  if !(isLoggedIn st) then st
  else ⟨st.session, st.users, addItem st.cart p⟩

/-- Source `removeFromCart(id)`: `cart.filter(item => item.id !== id)`, persisted
unconditionally (no login check in the source). -/
def removeFromCart (st : AppState) (id : String) : AppState :=
  ⟨st.session, st.users, st.cart.filter (fun item => item.id != id)⟩

/-- The list transformation of `changeQuantity`: find the first item with the
given id; if absent return unchanged, otherwise set its quantity to
`Math.max(1, quantity + delta)`. -/
def changeQuantityItems : List CartItem → String → ℤ → List CartItem
  | [], _, _ => []
  | item :: rest, id, delta =>
      if item.id == id then
        ⟨item.id, item.name, item.price, max 1 (item.quantity + delta)⟩ :: rest
      else item :: changeQuantityItems rest id delta

/-- Source `changeQuantity(id, delta)`, applied to the persisted state (no login
check in the source). -/
def changeQuantity (st : AppState) (id : String) (delta : ℤ) : AppState :=
  ⟨st.session, st.users, changeQuantityItems st.cart id delta⟩

/-! ## Auth Service -/

/-- Source `registerUser` on details (email, phone, company, password): rejected (`false`) when
any field is falsy or a user with the same email exists; otherwise the user is
appended, persisted, and a session is created for the email. -/
def registerUser (st : AppState) (email phone company password : String) :
    Option User × AppState :=
  if email == "" || phone == "" || company == "" || password == "" then (none, st)
  else match st.users.find? (fun u => u.email == email) with
    | some _ => (none, st)
    | none =>
        let newUser : User := ⟨email, phone, company, password⟩
        (some newUser, ⟨some email, st.users ++ [newUser], st.cart⟩)

/-- Source `loginUser(email, password)`: find a user with exactly matching email and
password; on success store a session and return true, else return false. -/
def loginUser (st : AppState) (email password : String) : Bool × AppState :=
  match st.users.find? (fun u => u.email == email && u.password == password) with
  | some _ => (true, ⟨some email, st.users, st.cart⟩)
  | none => (false, st)

/-- Source `logoutUser()`: saves a null session. -/
def logoutUser (st : AppState) : AppState :=
  ⟨none, st.users, st.cart⟩

/-- The logout click handler: `logoutUser()` followed by `saveCart([])`
(logout implies cart abandonment). -/
def logoutAndClearCart (st : AppState) : AppState :=
  ⟨none, st.users, []⟩

/-! ## Checkout Flow -/

/-- Why checkout is blocked, in the order the source checks. -/
inductive BlockReason where
  | notLoggedIn
  | emptyCart
  | belowMinimum
deriving DecidableEq

/-- The checkout page either blocks (hiding the form) or shows the order
summary with the Pricing Engine breakdown. -/
inductive CheckoutView where
  | blocked (reason : BlockReason)
  | ready (pricing : PricingOut)
deriving DecidableEq

/-- Whether the checkout view is in a blocked state. -/
def CheckoutView.isBlocked : CheckoutView → Bool
  | .blocked _ => true
  | .ready _ => false

/-- Source `renderCheckout` viewed as a state machine: blocked when not logged in,
when the cart is empty, or when `totalQty < 50`; otherwise ready with the
checkout pricing breakdown. -/
def renderCheckout (st : AppState) : CheckoutView :=
  if !(isLoggedIn st) then .blocked .notLoggedIn
  else if st.cart.length == 0 then .blocked .emptyCart
  else if totalQuantity st.cart < 50 then .blocked .belowMinimum
  else .ready (pricingCheckoutView st.cart)

/-- The confirmed checkout submit handler: `saveCart([])`. -/
def checkoutSubmit (st : AppState) : AppState :=
  ⟨st.session, st.users, []⟩
/-! ## Concrete states used by the witnesses -/

/-- A logged-out state holding one cart item. -/
def stGuest : AppState := ⟨none, [], [⟨"a", "A", 10, 3⟩]⟩

/-- Another logged-out state holding one cart item. -/
def stUngated : AppState := ⟨none, [], [⟨"a", "A", 10, 3⟩]⟩

/-- A logged-in state whose cart meets the minimum wholesale quantity. -/
def stReady : AppState := ⟨some "buyer@example.com", [], [⟨"a", "A", 10, 60⟩]⟩

/-- A state whose user directory already contains the email "a@a.com". -/
def stDupDir : AppState := ⟨none, [⟨"a@a.com", "555", "Co", "pw"⟩], []⟩

/-- A state with a single registered user, none matching "x@x.com". -/
def stOneUser : AppState := ⟨none, [⟨"a@a.com", "555", "Co", "pw"⟩], []⟩

/-- A logged-in state with two distinct cart item ids. -/
def stTwoItems : AppState := ⟨some "u@e", [], [⟨"a", "A", 10, 2⟩, ⟨"b", "B", 5, 1⟩]⟩

/-! ## Helper lemmas -/

/-- Characterisation of the discount-rate if-chain as disjoint tiers. -/
lemma discountRateOf_cases (q : ℤ) :
    (discountRateOf q = 2/10 ↔ 500 ≤ q) ∧
    (discountRateOf q = 15/100 ↔ 300 ≤ q ∧ q < 500) ∧
    (discountRateOf q = 1/10 ↔ 200 ≤ q ∧ q < 300) ∧
    (discountRateOf q = 5/100 ↔ 100 ≤ q ∧ q < 200) ∧
    (discountRateOf q = 0 ↔ q < 100) := by
  unfold discountRateOf
  split_ifs with h1 h2 h3 h4 <;>
    refine ⟨?_, ?_, ?_, ?_, ?_⟩ <;>
    constructor <;>
    intro h <;>
    first
      | rfl
      | omega
      | (exfalso; norm_num at h)

/-- Folding price-times-quantity sums from any accumulator. -/
lemma foldl_price_mul (cart : List CartItem) (a : ℚ) :
    cart.foldl (fun sum item => sum + item.price * (item.quantity : ℚ)) a
      = a + (cart.map (fun item => item.price * (item.quantity : ℚ))).sum := by
  induction cart generalizing a with
  | nil => simp
  | cons x xs ih => simp [List.foldl, ih]; ring

/-- A quantity change for an absent id leaves the cart unchanged. -/
lemma changeQuantityItems_absent (cart : List CartItem) (id : String) (delta : ℤ)
    (h : ∀ item ∈ cart, item.id ≠ id) :
    changeQuantityItems cart id delta = cart := by
  induction cart with
  | nil => rfl
  | cons x xs ih =>
      have hx : x.id ≠ id := h x (by simp)
      simp [changeQuantityItems, hx, ih (fun q hq => h q (by simp [hq]))]

/-- A quantity change never adds or removes items. -/
lemma changeQuantityItems_length (cart : List CartItem) (id : String) (delta : ℤ) :
    (changeQuantityItems cart id delta).length = cart.length := by
  induction cart with
  | nil => rfl
  | cons x xs ih =>
      by_cases hx : x.id = id <;> simp [changeQuantityItems, hx, ih]

/-- Every item after a quantity change has quantity at least 1 or is an
untouched original item. -/
lemma changeQuantityItems_quantities (cart : List CartItem) (id : String) (delta : ℤ) :
    ∀ item ∈ changeQuantityItems cart id delta, 1 ≤ item.quantity ∨ item ∈ cart := by
  induction cart with
  | nil => simp [changeQuantityItems]
  | cons x xs ih =>
      by_cases hx : x.id = id
      · simp only [changeQuantityItems, hx, beq_self_eq_true, if_true]
        intro item hmem
        rcases List.mem_cons.mp hmem with h | h
        · subst h; exact Or.inl (le_max_left 1 _)
        · exact Or.inr (List.mem_cons_of_mem _ h)
      · simp only [changeQuantityItems, beq_iff_eq, hx, if_false]
        intro item hmem
        rcases List.mem_cons.mp hmem with h | h
        · subst h; exact Or.inr (List.mem_cons_self _ _)
        · rcases ih item h with h1 | h1
          · exact Or.inl h1
          · exact Or.inr (List.mem_cons_of_mem _ h1)

/-- A quantity change rewrites exactly the first item carrying the id. -/
lemma changeQuantityItems_found (pre : List CartItem) (item : CartItem) (post : List CartItem)
    (id : String) (delta : ℤ) (hpre : ∀ q ∈ pre, q.id ≠ id) (hid : item.id = id) :
    changeQuantityItems (pre ++ item :: post) id delta =
      pre ++ ⟨item.id, item.name, item.price, max 1 (item.quantity + delta)⟩ :: post := by
  induction pre with
  | nil => simp [changeQuantityItems, hid]
  | cons x xs ih =>
      have hx : x.id ≠ id := hpre x (by simp)
      simp [changeQuantityItems, hx, ih (fun q hq => hpre q (by simp [hq]))]

/-- The ids after `addItem`: unchanged when the product id is already present,
otherwise the product id is appended. -/
lemma addItem_map_id (cart : List CartItem) (p : Product) :
    (addItem cart p).map CartItem.id =
      if p.id ∈ cart.map CartItem.id then cart.map CartItem.id
      else cart.map CartItem.id ++ [p.id] := by
  induction cart with
  | nil => simp [addItem]
  | cons x xs ih =>
      by_cases hx : x.id = p.id
      · simp [addItem, hx]
      · have hne : ¬ p.id = x.id := fun h => hx h.symm
        simp only [addItem, beq_iff_eq, hx, if_false, List.map_cons, List.mem_cons, hne,
          false_or, ih]
        by_cases hmem : p.id ∈ xs.map CartItem.id <;> simp [hmem]

/-- Adding a product whose id is absent appends a fresh quantity-1 item. -/
lemma addItem_absent (cart : List CartItem) (p : Product)
    (h : ∀ item ∈ cart, item.id ≠ p.id) :
    addItem cart p = cart ++ [⟨p.id, p.name, p.price, 1⟩] := by
  induction cart with
  | nil => rfl
  | cons x xs ih =>
      have hx : x.id ≠ p.id := h x (by simp)
      simp [addItem, hx, ih (fun q hq => h q (by simp [hq]))]

/-- A quantity change never alters the sequence of item ids. -/
lemma changeQuantityItems_map_id (cart : List CartItem) (id : String) (delta : ℤ) :
    (changeQuantityItems cart id delta).map CartItem.id = cart.map CartItem.id := by
  induction cart with
  | nil => rfl
  | cons x xs ih =>
      by_cases hx : x.id = id <;> simp [changeQuantityItems, hx, ih]

/-! ## Claims -/

/-- Claim C1: for every cart, the discount rate computed from `totalQuantity`
is the tabulated step function — 0.20 when the total quantity is at least 500,
0.15 when at least 300, 0.10 when at least 200, 0.05 when at least 100, and 0
below 100 — with every lower bound inclusive and the highest qualifying tier
winning; the boundary values 99/100/199/200/299/300/499/500 map to
0/0.05/0.05/0.10/0.10/0.15/0.15/0.20. -/
theorem discountRate_step_function :
    (∀ cart : List CartItem,
      (discountRateOf (totalQuantity cart) = 2/10 ↔ 500 ≤ totalQuantity cart) ∧
      (discountRateOf (totalQuantity cart) = 15/100 ↔
        300 ≤ totalQuantity cart ∧ totalQuantity cart < 500) ∧
      (discountRateOf (totalQuantity cart) = 1/10 ↔
        200 ≤ totalQuantity cart ∧ totalQuantity cart < 300) ∧
      (discountRateOf (totalQuantity cart) = 5/100 ↔
        100 ≤ totalQuantity cart ∧ totalQuantity cart < 200) ∧
      (discountRateOf (totalQuantity cart) = 0 ↔ totalQuantity cart < 100)) ∧
    discountRateOf 99 = 0 ∧ discountRateOf 100 = 5/100 ∧
    discountRateOf 199 = 5/100 ∧ discountRateOf 200 = 1/10 ∧
    discountRateOf 299 = 1/10 ∧ discountRateOf 300 = 15/100 ∧
    discountRateOf 499 = 15/100 ∧ discountRateOf 500 = 2/10 := by
  refine ⟨fun cart => discountRateOf_cases (totalQuantity cart), ?_, ?_, ?_, ?_, ?_, ?_, ?_, ?_⟩ <;>
    norm_num [discountRateOf]

/-- Claim C2: for every cart, `subtotal` is the sum of price times quantity
over the items, `discountAmount` is `subtotal` times the discount rate, and
`grandTotal` is `subtotal` minus `discountAmount`; the single-item cart with
price 10 and quantity 250 yields rate 0.10, subtotal 2500, discount amount
250, and grand total 2250. -/
theorem pricing_engine_formulas :
    (∀ cart : List CartItem,
      subtotal cart = (cart.map (fun item => item.price * (item.quantity : ℚ))).sum ∧
      discountAmount cart = subtotal cart * discountRateOf (totalQuantity cart) ∧
      grandTotal cart = subtotal cart - discountAmount cart) ∧
    discountRateOf (totalQuantity [⟨"a", "A", 10, 250⟩]) = 1/10 ∧
    subtotal [⟨"a", "A", 10, 250⟩] = 2500 ∧
    discountAmount [⟨"a", "A", 10, 250⟩] = 250 ∧
    grandTotal [⟨"a", "A", 10, 250⟩] = 2250 := by
  refine ⟨fun cart => ⟨?_, rfl, rfl⟩, ?_, ?_, ?_, ?_⟩
  · simpa [subtotal] using foldl_price_mul cart 0
  all_goals
    norm_num [grandTotal, discountAmount, subtotal, totalQuantity, discountRateOf]

/-- Claim C3: checkout is blocked exactly when the caller is not logged in, the
cart is empty, or the total quantity is below 50; otherwise it is ready and
carries the Pricing Engine breakdown of the cart, and the confirmed submit
handler clears the cart to empty; the logged-in single-item cart with price 10
and quantity 60 is ready with discount rate 0 and grand total 600. -/
theorem checkout_flow_spec (st : AppState) :
    ((renderCheckout st).isBlocked = true ↔
      isLoggedIn st = false ∨ st.cart = [] ∨ totalQuantity st.cart < 50) ∧
    (isLoggedIn st = true → st.cart ≠ [] → ¬ totalQuantity st.cart < 50 →
      renderCheckout st = .ready (pricingCheckoutView st.cart)) ∧
    (checkoutSubmit st).cart = [] ∧
    renderCheckout ⟨some "buyer@example.com", [], [⟨"a", "A", 10, 60⟩]⟩ =
      .ready ⟨60, 0, 600, 0, 600⟩ := by
  refine ⟨?_, ?_, rfl, ?_⟩
  · unfold renderCheckout
    split_ifs with h1 h2 h3 <;>
      simp_all [CheckoutView.isBlocked, List.length_eq_zero, isLoggedIn]
  · intro h1 h2 h3
    have hl : st.cart.length ≠ 0 := by simpa [List.length_eq_zero] using h2
    simp [renderCheckout, h1, hl, h3]
  · norm_num [renderCheckout, isLoggedIn, totalQuantity, pricingCheckoutView]

/-- Witness for claim C3: the logged-in 60-unit cart discharges the three
readiness hypotheses and renders the checkout pricing breakdown. -/
theorem checkout_flow_witness :
    renderCheckout stReady = .ready (pricingCheckoutView stReady.cart) :=
  (checkout_flow_spec stReady).2.1 rfl (by decide) (by decide)

/-- Claim C4: registration is rejected exactly when a field is empty or the
email already exists (case-sensitively) in the user directory; rejection
leaves the whole state — in particular the directory — unchanged, and success
appends the new user to the directory and establishes a session for the email
(auto-login). -/
theorem registerUser_spec (st : AppState) (email phone company password : String) :
    ((registerUser st email phone company password).1 = none ↔
      email = "" ∨ phone = "" ∨ company = "" ∨ password = "" ∨
        ∃ u ∈ st.users, u.email = email) ∧
    ((registerUser st email phone company password).1 = none →
      (registerUser st email phone company password).2 = st) ∧
    (∀ u : User, (registerUser st email phone company password).1 = some u →
      u = ⟨email, phone, company, password⟩ ∧
      (registerUser st email phone company password).2 =
        ⟨some email, st.users ++ [u], st.cart⟩) := by
  unfold registerUser
  by_cases hf : (email == "" || phone == "" || company == "" || password == "") = true
  · rw [if_pos hf]
    simp only [Bool.or_eq_true, beq_iff_eq] at hf
    refine ⟨?_, fun _ => rfl, fun u hu => by simp at hu⟩
    simp only [true_iff]
    tauto
  · rw [if_neg hf]
    simp only [Bool.or_eq_true, beq_iff_eq, not_or] at hf
    obtain ⟨⟨⟨he, hp⟩, hc⟩, hpw⟩ := hf
    cases hfind : st.users.find? (fun u => u.email == email) with
    | some u =>
        have hmem := List.mem_of_find?_eq_some hfind
        have hpu := List.find?_some hfind
        simp only [beq_iff_eq] at hpu
        simp only [hfind]
        refine ⟨⟨fun _ => Or.inr (Or.inr (Or.inr (Or.inr ⟨u, hmem, hpu⟩))), fun _ => by trivial⟩,
          fun _ => by trivial, fun v hv => by simp at hv⟩
    | none =>
        rw [List.find?_eq_none] at hfind
        simp only [List.find?_eq_none] at *
        refine ⟨?_, ?_, ?_⟩
        · constructor
          · intro h; simp at h
          · rintro (h | h | h | h | ⟨u, hu, hueq⟩)
            · exact absurd h he
            · exact absurd h hp
            · exact absurd h hc
            · exact absurd h hpw
            · have := hfind u hu
              rw [beq_iff_eq] at this
              exact absurd hueq this
        · intro h; simp at h
        · intro u hu
          simp only [Option.some.injEq] at hu
          exact ⟨hu.symm, by rw [← hu]⟩

/-- Witness for claim C4: registering "a@a.com" into a directory already
holding that email is rejected and the state, directory length included, is
unchanged. -/
theorem registerUser_witness :
    (registerUser stDupDir "a@a.com" "777" "Co2" "pw2").1 = none ∧
    (registerUser stDupDir "a@a.com" "777" "Co2" "pw2").2 = stDupDir := by
  have h := registerUser_spec stDupDir "a@a.com" "777" "Co2" "pw2"
  have h1 : (registerUser stDupDir "a@a.com" "777" "Co2" "pw2").1 = none :=
    h.1.mpr (Or.inr (Or.inr (Or.inr (Or.inr
      ⟨⟨"a@a.com", "555", "Co", "pw"⟩, by simp [stDupDir], rfl⟩))))
  exact ⟨h1, h.2.1 h1⟩

/-- Claim C5: login succeeds iff the directory holds a user whose email and
password both exactly match (plaintext comparison); success establishes a
session for the email and rejection leaves the state — the session record in
particular — unchanged. -/
theorem loginUser_spec (st : AppState) (email password : String) :
    ((loginUser st email password).1 = true ↔
      ∃ u ∈ st.users, u.email = email ∧ u.password = password) ∧
    ((loginUser st email password).1 = true →
      (loginUser st email password).2 = ⟨some email, st.users, st.cart⟩) ∧
    ((loginUser st email password).1 = false →
      (loginUser st email password).2 = st) := by
  unfold loginUser
  cases hfind : st.users.find? (fun u => u.email == email && u.password == password) with
  | some u =>
      have hmem := List.mem_of_find?_eq_some hfind
      have hpu := List.find?_some hfind
      simp only [Bool.and_eq_true, beq_iff_eq] at hpu
      refine ⟨?_, fun _ => rfl, fun h => by simp at h⟩
      simp only [true_iff]
      exact ⟨u, hmem, hpu.1, hpu.2⟩
  | none =>
    rw [List.find?_eq_none] at hfind
    refine ⟨?_, fun h => by simp at h, fun _ => rfl⟩
    constructor
    · intro h; simp at h
    · rintro ⟨u, hu, he, hpw⟩
      have := hfind u hu
      simp only [Bool.and_eq_true, beq_iff_eq] at this
      exact absurd ⟨he, hpw⟩ this

/-- Witness for claim C5: logging in as "x@x.com" with password "p" against a
directory holding no such user is rejected and leaves the state unchanged. -/
theorem loginUser_witness :
    (loginUser stOneUser "x@x.com" "p").1 = false ∧
    (loginUser stOneUser "x@x.com" "p").2 = stOneUser := by
  have h1 : (loginUser stOneUser "x@x.com" "p").1 = false := by decide
  exact ⟨h1, (loginUser_spec stOneUser "x@x.com" "p").2.2 h1⟩

/-- Claim C6: for every state and product, `addToCart` invoked while not
logged in leaves the cart record completely unchanged. -/
theorem addToCart_requires_login (st : AppState) (p : Product) :
    isLoggedIn st = false → (addToCart st p).cart = st.cart := by
  intro h
  simp [addToCart, h]

/-- Witness for claim C6: adding a product to the logged-out state leaves its
cart unchanged. -/
theorem addToCart_requires_login_witness :
    (addToCart stGuest ⟨"b", "B", 5⟩).cart = stGuest.cart :=
  addToCart_requires_login stGuest ⟨"b", "B", 5⟩ rfl

/-- Counterexample to claim C7: in a logged-out state, `removeFromCart` does
mutate the cart record — only `addToCart` is gated by the Auth Service. -/
theorem cart_gating_counterexample :
    isLoggedIn stUngated = false ∧
    (removeFromCart stUngated "a").cart ≠ stUngated.cart :=
  ⟨rfl, by decide⟩

/-- Claim C7 as amended: `addToCart` is gated by the Auth Service — while not
logged in it leaves the cart unchanged — whereas `removeFromCart` and
`changeQuantity` apply their mutation regardless of the session and user
records. -/
theorem cart_gating_amended (sess other : Option String) (users others : List User)
    (cart : List CartItem) (p : Product) (id : String) (delta : ℤ) :
    (addToCart ⟨none, users, cart⟩ p).cart = cart ∧
    (removeFromCart ⟨sess, users, cart⟩ id).cart
      = (removeFromCart ⟨other, others, cart⟩ id).cart ∧
    (changeQuantity ⟨sess, users, cart⟩ id delta).cart
      = (changeQuantity ⟨other, others, cart⟩ id delta).cart :=
  ⟨rfl, rfl, rfl⟩

/-- Claim C8: `changeQuantity` is a no-op when no cart item carries the id;
otherwise it rewrites the first matching item's quantity to the maximum of 1
and the old quantity plus delta, never removing an item and never letting an
updated quantity fall below 1. -/
theorem changeQuantity_floor (cart : List CartItem) (id : String) (delta : ℤ) :
    ((∀ item ∈ cart, item.id ≠ id) → changeQuantityItems cart id delta = cart) ∧
    (changeQuantityItems cart id delta).length = cart.length ∧
    (∀ item ∈ changeQuantityItems cart id delta, 1 ≤ item.quantity ∨ item ∈ cart) ∧
    (∀ pre item post, cart = pre ++ item :: post → (∀ q ∈ pre, q.id ≠ id) → item.id = id →
      changeQuantityItems cart id delta =
        pre ++ ⟨item.id, item.name, item.price, max 1 (item.quantity + delta)⟩ :: post) :=
  ⟨changeQuantityItems_absent cart id delta,
   changeQuantityItems_length cart id delta,
   changeQuantityItems_quantities cart id delta,
   fun pre item post hsplit hpre hid => by
     subst hsplit; exact changeQuantityItems_found pre item post id delta hpre hid⟩

/-- Witness for claim C8: decrementing the quantity-3 item by 100 floors its
quantity at 1 and keeps the item. -/
theorem changeQuantity_floor_witness :
    changeQuantityItems [⟨"a", "A", 10, 3⟩] "a" (-100) = [⟨"a", "A", 10, 1⟩] := by
  have h := (changeQuantity_floor [⟨"a", "A", 10, 3⟩] "a" (-100)).2.2.2
      [] ⟨"a", "A", 10, 3⟩ [] rfl (by simp) rfl
  rw [h]
  decide

/-- Claim C9: the pricing computation coded inside `renderCart` and the one
coded inside `renderCheckout` produce identical outputs (total quantity,
discount rate, subtotal, discount amount, grand total) on every cart. -/
theorem pricing_paths_agree : ∀ cart : List CartItem,
    pricingCartView cart = pricingCheckoutView cart :=
  fun _ => rfl

/-- Claim C10: starting from a cart with pairwise-distinct item ids, every
cart operation — `addToCart`, `removeFromCart`, `changeQuantity`, and the
cart clearing on checkout submission or logout — again yields pairwise
distinct ids; `addItem` appends a fresh quantity-1 item exactly when the
product id is absent and otherwise only updates an existing item, keeping the
id sequence unchanged. -/
theorem cart_ids_unique_invariant (st : AppState) (p : Product) (id : String) (delta : ℤ) :
    (st.cart.map CartItem.id).Nodup →
      ((addToCart st p).cart.map CartItem.id).Nodup ∧
      ((removeFromCart st id).cart.map CartItem.id).Nodup ∧
      ((changeQuantity st id delta).cart.map CartItem.id).Nodup ∧
      ((checkoutSubmit st).cart.map CartItem.id).Nodup ∧
      ((logoutAndClearCart st).cart.map CartItem.id).Nodup ∧
      ((∀ item ∈ st.cart, item.id ≠ p.id) →
        addItem st.cart p = st.cart ++ [⟨p.id, p.name, p.price, 1⟩]) ∧
      ((∃ item ∈ st.cart, item.id = p.id) →
        (addItem st.cart p).map CartItem.id = st.cart.map CartItem.id) := by
  intro h
  refine ⟨?_, ?_, ?_, List.nodup_nil, List.nodup_nil, addItem_absent st.cart p, ?_⟩
  · unfold addToCart
    split_ifs with hlog
    · exact h
    · show ((addItem st.cart p).map CartItem.id).Nodup
      rw [addItem_map_id]
      split_ifs with hmem
      · exact h
      · simp [List.nodup_append, h, hmem]
  · show ((st.cart.filter (fun item => item.id != id)).map CartItem.id).Nodup
    exact ((st.cart.filter_sublist).map CartItem.id).nodup h
  · show ((changeQuantityItems st.cart id delta).map CartItem.id).Nodup
    rw [changeQuantityItems_map_id]
    exact h
  · rintro ⟨item, hmem, hid⟩
    rw [addItem_map_id, if_pos]
    exact List.mem_map.mpr ⟨item, hmem, hid⟩

/-- Witness for claim C10: the two-item nodup cart keeps distinct ids after an
`addToCart` of a third product. -/
theorem cart_ids_unique_invariant_witness :
    ((addToCart stTwoItems ⟨"c", "C", 7⟩).cart.map CartItem.id).Nodup :=
  (cart_ids_unique_invariant stTwoItems ⟨"c", "C", 7⟩ "a" 1 (by decide)).1
